import Mathlib

/-!
ThreadStackManagerImpl for the Infineon CYW30739 platform.

A shallow embedding of `src/platform/Infineon/CYW30739/ThreadStackManagerImpl.cpp`
and the properties of its synchronisation harness.

* The member functions that consist of one RTOS primitive call (`_LockThreadStack`,
  `_UnlockThreadStack`, `_WaitOnSrpClearAllComplete`, `_NotifySrpClearAllComplete`,
  the two signal entry points) are state transformers on the manager.  A function
  that may suspend its caller returns `none` while the caller is still suspended.
* `_InitThreadStack` is a function of the outcomes of the primitives it calls and
  reports the error, the ordered list of performed steps and the members it set.
* `ThreadTaskMain` is an endless loop; it is embedded as a step function over the
  program point of the Processing Task.  Other contexts (application threads,
  interrupt handlers) run between those steps, which is described by a schedule.
-/

namespace CYW30739

/-! ## Status codes -/

/-- The values of `CHIP_ERROR` that the file produces itself, and any other value. -/
inductive CHIP_ERROR
  | CHIP_NO_ERROR
  | CHIP_ERROR_NO_MEMORY
  | CHIP_ERROR_INTERNAL
  | CHIP_ERROR_OTHER (code : Nat)
  deriving DecidableEq, Repr

/-- The values of the RTOS status type that the file tests for, and any other value. -/
inductive wiced_result_t
  | WICED_SUCCESS
  | WICED_NOT_OWNED
  | WICED_ERROR (code : Nat)
  deriving DecidableEq, Repr

/-! ## Execution contexts and gates -/

/-- An execution context: the dedicated Processing Task or any other thread. -/
inductive Ctx
  | processingTask
  | external (id : Nat)
  deriving DecidableEq, Repr

/-- The state of an initialised RTOS mutex. -/
inductive Gate
  | Free
  | HeldBy (c : Ctx)
  deriving DecidableEq, Repr

/-- The member functions that log through `ChipLogError` (the value of `__func__`). -/
inductive Func
  | _LockThreadStack
  | _UnlockThreadStack
  | _WaitOnSrpClearAllComplete
  | _NotifySrpClearAllComplete
  deriving DecidableEq, Repr

/-- One line written by `ChipLogError(DeviceLayer, "%s %x", __func__, result)`. -/
structure LogEntry where
  func : Func
  result : wiced_result_t
  deriving DecidableEq, Repr

/-! ## RTOS primitives and the event flags -/

/-- Modelled from the spec: the vendor primitive `wiced_rtos_lock_mutex`, which is
not among the sources.  `status` is the status the call is going to return.  A
failure status is returned at once and leaves the gate as it is.  Success is only
granted on a free gate and makes the caller the holder; while the gate is held the
caller stays suspended (`none`). -/
def wiced_rtos_lock_mutex (status : wiced_result_t) (caller : Ctx) (g : Gate) :
    Option (wiced_result_t × Gate) :=
  if status = .WICED_SUCCESS then
    match g with
    | .Free => some (.WICED_SUCCESS, .HeldBy caller)
    | .HeldBy _ => none
  else some (status, g)

/-- Modelled from the spec: the vendor primitive `wiced_rtos_unlock_mutex`, which is
not among the sources.  Released by its holder the gate becomes free; from any other
context (also when nobody holds it) the call reports `WICED_NOT_OWNED` and changes
nothing.  `fault` is a primitive-level failure with the given code. -/
def wiced_rtos_unlock_mutex (fault : Option Nat) (caller : Ctx) (g : Gate) :
    wiced_result_t × Gate :=
  match fault with
  | some code => (.WICED_ERROR code, g)
  | none => if g = .HeldBy caller then (.WICED_SUCCESS, .Free) else (.WICED_NOT_OWNED, g)

/-- Modelled from the spec: the header with the flag constants is not among the
sources; the spec names two distinct bits, this is the first one. -/
def kActivityPendingEventFlag : Nat := 1 <<< 0

/-- Modelled from the spec: the second named bit of the Event Signal Set. -/
def kActivityPendingFromISREventFlag : Nat := 1 <<< 1

/-- Modelled from the spec: `EventFlags::Set` is not among the sources; setting a
flag is a bitwise OR into the pending bits. -/
def EventFlags.Set (flag : Nat) (pending : Nat) : Nat :=
  pending ||| flag

/-- Modelled from the spec: `EventFlags::WaitAnyForever` is not among the sources.
`err` is the error the call is going to return.  An interrupted wait fails with
that error and leaves the pending bits alone.  Otherwise the caller is suspended
(`none`) until a bit is pending, and then receives all pending bits, which are
cleared in the same step.  The result is (error, returned flags, pending bits). -/
def EventFlags.WaitAnyForever (err : CHIP_ERROR) (pending : Nat) :
    Option (CHIP_ERROR × Nat × Nat) :=
  if err ≠ .CHIP_NO_ERROR then some (err, 0, pending)
  else if pending ≠ 0 then some (.CHIP_NO_ERROR, pending, 0)
  else none

/-- Modelled from the spec: `EventFlags::Init` is not among the sources.  A failed
creation is `NoMemory`, a failed primitive start-up is an internal fault, and a
fresh set has no bit pending. -/
def EventFlags.Init (created : Bool) (status : wiced_result_t) : CHIP_ERROR × Option Nat :=
  if !created then (.CHIP_ERROR_NO_MEMORY, none)
  else if status ≠ .WICED_SUCCESS then (.CHIP_ERROR_INTERNAL, none)
  else (.CHIP_NO_ERROR, some 0)

/-! ## The manager -/

/-- The members of a running manager and the error log. -/
structure ThreadStackManagerImpl where
  mEventFlags : Nat
  mMutex : Gate
  mSrpClearAllSemaphore : Gate
  log : List LogEntry
  deriving DecidableEq, Repr

/-- The effect of `ChipLogError(DeviceLayer, "%s %x", __func__, result)`. -/
def ThreadStackManagerImpl.ChipLogError (f : Func) (result : wiced_result_t)
    (m : ThreadStackManagerImpl) : ThreadStackManagerImpl :=
  { m with log := m.log ++ [⟨f, result⟩] }

/-- Source function `SignalThreadActivityPending()`: set the activity flag. -/
def ThreadStackManagerImpl.SignalThreadActivityPending (m : ThreadStackManagerImpl) :
    ThreadStackManagerImpl :=
  { m with mEventFlags := EventFlags.Set kActivityPendingEventFlag m.mEventFlags }

/-- Source function `SignalThreadActivityPendingFromISR()`: set the interrupt flag. -/
def ThreadStackManagerImpl.SignalThreadActivityPendingFromISR (m : ThreadStackManagerImpl) :
    ThreadStackManagerImpl :=
  { m with mEventFlags := EventFlags.Set kActivityPendingFromISREventFlag m.mEventFlags }

/-- Source function `_LockThreadStack()`: lock `mMutex`; a status other than success is logged and
the function returns all the same. -/
def ThreadStackManagerImpl._LockThreadStack (status : wiced_result_t) (caller : Ctx)
    (m : ThreadStackManagerImpl) : Option ThreadStackManagerImpl :=
  match wiced_rtos_lock_mutex status caller m.mMutex with
  | none => none
  | some (result, g) =>
    let m1 := { m with mMutex := g }
    if result = .WICED_SUCCESS then some m1
    else some (m1.ChipLogError ._LockThreadStack result)

/-- Source function `_UnlockThreadStack()`: unlock `mMutex`; only a status that is neither success
nor `WICED_NOT_OWNED` is logged. -/
def ThreadStackManagerImpl._UnlockThreadStack (fault : Option Nat) (caller : Ctx)
    (m : ThreadStackManagerImpl) : ThreadStackManagerImpl :=
  let (result, g) := wiced_rtos_unlock_mutex fault caller m.mMutex
  let m1 := { m with mMutex := g }
  if result = .WICED_SUCCESS ∨ result = .WICED_NOT_OWNED then m1
  else m1.ChipLogError ._UnlockThreadStack result

/-- Source function `_WaitOnSrpClearAllComplete()`: lock `mSrpClearAllSemaphore`. -/
def ThreadStackManagerImpl._WaitOnSrpClearAllComplete (status : wiced_result_t) (caller : Ctx)
    (m : ThreadStackManagerImpl) : Option ThreadStackManagerImpl :=
  match wiced_rtos_lock_mutex status caller m.mSrpClearAllSemaphore with
  | none => none
  | some (result, g) =>
    let m1 := { m with mSrpClearAllSemaphore := g }
    if result = .WICED_SUCCESS then some m1
    else some (m1.ChipLogError ._WaitOnSrpClearAllComplete result)

/-- Source function `_NotifySrpClearAllComplete()`: unlock `mSrpClearAllSemaphore`. -/
def ThreadStackManagerImpl._NotifySrpClearAllComplete (fault : Option Nat) (caller : Ctx)
    (m : ThreadStackManagerImpl) : ThreadStackManagerImpl :=
  let (result, g) := wiced_rtos_unlock_mutex fault caller m.mSrpClearAllSemaphore
  let m1 := { m with mSrpClearAllSemaphore := g }
  if result = .WICED_SUCCESS ∨ result = .WICED_NOT_OWNED then m1
  else m1.ChipLogError ._NotifySrpClearAllComplete result

/-! ## Bring-up -/

/-- A mutex handle member: a null pointer, a created mutex that has not been
started, or a started mutex with its gate state. -/
inductive Handle
  | null
  | created
  | ready (g : Gate)
  deriving DecidableEq, Repr

/-- The two mutex members of the manager. -/
inductive Member
  | mMutex
  | mSrpClearAllSemaphore
  deriving DecidableEq, Repr

/-- The calls `_InitThreadStack` makes, in the order of the source. -/
inductive InitCall
  | wiced_rtos_create_thread
  | EventFlags_Init
  | wiced_rtos_create_mutex (m : Member)
  | wiced_rtos_init_mutex (m : Member)
  | otSysInit
  | DoInit
  deriving DecidableEq, Repr

/-- The outcomes of the primitives and collaborators that `_InitThreadStack` calls:
whether a creation returned a non-null handle, and the status of the other calls. -/
structure InitOutcomes where
  createThread : Bool
  createEventFlags : Bool
  initEventFlags : wiced_result_t
  createMutex : Bool
  initMutex : wiced_result_t
  createSrpMutex : Bool
  initSrpMutex : wiced_result_t
  doInit : CHIP_ERROR
  deriving DecidableEq, Repr

/-- What a call of `_InitThreadStack` leaves behind: the returned error, the calls
made in order, and the members. -/
structure InitResult where
  err : CHIP_ERROR
  calls : List InitCall
  mThread : Bool
  mEventFlags : Option Nat
  mMutex : Handle
  mSrpClearAllSemaphore : Handle
  deriving DecidableEq, Repr

/-- Modelled from the spec: the vendor primitive `wiced_rtos_create_mutex`, which is
not among the sources; it returns a handle or a null pointer. -/
def wiced_rtos_create_mutex (ok : Bool) : Handle :=
  if ok then .created else .null

/-- Modelled from the spec: the vendor primitive `wiced_rtos_init_mutex`, which is
not among the sources; a started gate is unlocked. -/
def wiced_rtos_init_mutex (status : wiced_result_t) (h : Handle) : wiced_result_t × Handle :=
  if status = .WICED_SUCCESS then
    match h with
    | .created => (.WICED_SUCCESS, .ready .Free)
    | other => (.WICED_SUCCESS, other)
  else (status, h)

/-- Source function `_InitThreadStack()`.  `srpClient` is the build switch
`CHIP_DEVICE_CONFIG_ENABLE_THREAD_SRP_CLIENT`.  `VerifyOrExit` sets the error and
jumps to the final `return err`; `ReturnErrorOnFailure` returns the error of the
call directly. -/
def ThreadStackManagerImpl._InitThreadStack (srpClient : Bool) (o : InitOutcomes) : InitResult :=
  let s0 : InitResult := ⟨.CHIP_NO_ERROR, [], false, none, .null, .null⟩
  -- mThread = wiced_rtos_create_thread();
  let s1 := { s0 with mThread := o.createThread,
                      calls := s0.calls ++ [InitCall.wiced_rtos_create_thread] }
  if !s1.mThread then { s1 with err := .CHIP_ERROR_NO_MEMORY } else
  -- ReturnErrorOnFailure(mEventFlags.Init());
  let (e, flags) := EventFlags.Init o.createEventFlags o.initEventFlags
  let s2 := { s1 with mEventFlags := flags, calls := s1.calls ++ [InitCall.EventFlags_Init] }
  if e ≠ .CHIP_NO_ERROR then { s2 with err := e } else
  -- mMutex = wiced_rtos_create_mutex();
  let s3 := { s2 with mMutex := wiced_rtos_create_mutex o.createMutex,
                      calls := s2.calls ++ [InitCall.wiced_rtos_create_mutex .mMutex] }
  if s3.mMutex = .null then { s3 with err := .CHIP_ERROR_NO_MEMORY } else
  -- result = wiced_rtos_init_mutex(mMutex);
  let (result, h) := wiced_rtos_init_mutex o.initMutex s3.mMutex
  let s4 := { s3 with mMutex := h, calls := s3.calls ++ [InitCall.wiced_rtos_init_mutex .mMutex] }
  if result ≠ .WICED_SUCCESS then { s4 with err := .CHIP_ERROR_INTERNAL } else
  -- otSysInit(0, NULL);
  let s5 := { s4 with calls := s4.calls ++ [InitCall.otSysInit] }
  if srpClient then
    -- mSrpClearAllSemaphore = wiced_rtos_create_mutex();
    let s6 := { s5 with mSrpClearAllSemaphore := wiced_rtos_create_mutex o.createSrpMutex,
                        calls := s5.calls ++ [InitCall.wiced_rtos_create_mutex .mSrpClearAllSemaphore] }
    if s6.mSrpClearAllSemaphore = .null then { s6 with err := .CHIP_ERROR_NO_MEMORY } else
    -- result = wiced_rtos_init_mutex(mSrpClearAllSemaphore);
    let (result2, h2) := wiced_rtos_init_mutex o.initSrpMutex s6.mSrpClearAllSemaphore
    let s7 := { s6 with mSrpClearAllSemaphore := h2,
                        calls := s6.calls ++ [InitCall.wiced_rtos_init_mutex .mSrpClearAllSemaphore] }
    if result2 ≠ .WICED_SUCCESS then { s7 with err := .CHIP_ERROR_INTERNAL } else
    -- err = GenericThreadStackManagerImpl_OpenThread<ThreadStackManagerImpl>::DoInit(NULL);
    { s7 with err := o.doInit, calls := s7.calls ++ [InitCall.DoInit] }
  else
    { s5 with err := o.doInit, calls := s5.calls ++ [InitCall.DoInit] }

/-- The running manager that a bring-up with the clear-all capability leaves behind,
when every member has been set up. -/
def InitResult.manager (r : InitResult) : Option ThreadStackManagerImpl :=
  match r.mEventFlags, r.mMutex, r.mSrpClearAllSemaphore with
  | some flags, .ready g, .ready sem => some ⟨flags, g, sem, []⟩
  | _, _, _ => none

/-- Outcomes of a bring-up in which nothing fails. -/
def InitOutcomes.allOk : InitOutcomes :=
  ⟨true, true, .WICED_SUCCESS, true, .WICED_SUCCESS, true, .WICED_SUCCESS, .CHIP_NO_ERROR⟩

/-! ## The processing loop -/

/-- The program point of the Processing Task inside the loop of `ThreadTaskMain`:
the statement it executes next. -/
inductive PC
  | atWait
  | atLock
  | atProcess
  | atUnlock
  deriving DecidableEq, Repr

/-- The calls made by `ThreadTaskMain`, once they have returned.  The wait carries
the error and the flags it returned, the lock carries the status of the lock
primitive, and the processing call carries the gate state found at its invocation. -/
inductive Call
  | WaitAnyForever (err : CHIP_ERROR) (flags : Nat)
  | LockThreadStack (status : wiced_result_t)
  | ProcessThreadActivity (gate : Gate)
  | UnlockThreadStack
  deriving DecidableEq, Repr

/-- The manager together with the Processing Task: its program point and the calls
it has made so far, oldest first. -/
structure TaskState where
  mgr : ThreadStackManagerImpl
  pc : PC
  calls : List Call
  deriving DecidableEq, Repr

/-- The outcomes of the primitives in one statement of the loop. -/
structure Outcomes where
  wait : CHIP_ERROR
  lock : wiced_result_t
  unlock : Option Nat
  deriving DecidableEq, Repr

/-- Source function `ThreadTaskMain()`, one statement of the loop body at a time;
`none` when the task is suspended in the statement.  The public `LockThreadStack()`
and `UnlockThreadStack()` forward to the underscore members of this file.  The
generic `ProcessThreadActivity()` is not among the sources; it works on the protocol
engine only, and the signals the engine raises meanwhile are the signal actions of
a schedule.

    while (true) {
        uint32_t flags = 0;
        if (mEventFlags.WaitAnyForever(flags) != CHIP_NO_ERROR) { continue; }
        LockThreadStack();
        ProcessThreadActivity();
        UnlockThreadStack();
    }
-/
def ThreadStackManagerImpl.ThreadTaskMain (o : Outcomes) (s : TaskState) : Option TaskState :=
  match s.pc with
  | .atWait =>
    match EventFlags.WaitAnyForever o.wait s.mgr.mEventFlags with
    | none => none
    | some (err, flags, pending) =>
      let s1 := { s with mgr := { s.mgr with mEventFlags := pending },
                         calls := s.calls ++ [Call.WaitAnyForever err flags] }
      if err ≠ .CHIP_NO_ERROR then some { s1 with pc := .atWait }
      else some { s1 with pc := .atLock }
  | .atLock =>
    match s.mgr._LockThreadStack o.lock .processingTask with
    | none => none
    | some m => some { mgr := m, pc := .atProcess, calls := s.calls ++ [Call.LockThreadStack o.lock] }
  | .atProcess =>
    some { s with pc := .atUnlock, calls := s.calls ++ [Call.ProcessThreadActivity s.mgr.mMutex] }
  | .atUnlock =>
    some { mgr := s.mgr._UnlockThreadStack o.unlock .processingTask, pc := .atWait,
           calls := s.calls ++ [Call.UnlockThreadStack] }

/-- What can happen next in the system: the Processing Task executes its next
statement, some context raises one of the two signals, or another thread calls
the lock or the unlock entry point. -/
inductive Action
  | task (o : Outcomes)
  | SignalThreadActivityPending
  | SignalThreadActivityPendingFromISR
  | LockThreadStack (id : Nat) (status : wiced_result_t)
  | UnlockThreadStack (id : Nat) (fault : Option Nat)
  deriving DecidableEq, Repr

/-- The effect of one action; an action whose caller is suspended changes nothing. -/
def Action.apply (s : TaskState) : Action → TaskState
  | .task o => (ThreadStackManagerImpl.ThreadTaskMain o s).getD s
  | .SignalThreadActivityPending => { s with mgr := s.mgr.SignalThreadActivityPending }
  | .SignalThreadActivityPendingFromISR =>
    { s with mgr := s.mgr.SignalThreadActivityPendingFromISR }
  | .LockThreadStack id status =>
    match s.mgr._LockThreadStack status (.external id) with
    | none => s
    | some m => { s with mgr := m }
  | .UnlockThreadStack id fault => { s with mgr := s.mgr._UnlockThreadStack fault (.external id) }

/-- The state after a schedule of actions. -/
def run (sched : List Action) (s : TaskState) : TaskState :=
  sched.foldl Action.apply s

/-! ## Vocabulary of the properties -/

/-- The state in which the Processing Task enters `ThreadTaskMain`: at the wait,
with no call made yet. -/
def TaskState.start (m : ThreadStackManagerImpl) : TaskState :=
  ⟨m, .atWait, []⟩

/-- The call discipline of the loop as the specification states it: which call may
come next at a program point, and where the task is afterwards.  A failed wait leads
back to the wait, a successful one to lock, processing, unlock, and back to the wait;
the flags a wait returned play no role. -/
def Call.next : PC → Call → Option PC
  | .atWait, .WaitAnyForever err _ => if err = .CHIP_NO_ERROR then some .atLock else some .atWait
  | .atLock, .LockThreadStack _ => some .atProcess
  | .atProcess, .ProcessThreadActivity _ => some .atUnlock
  | .atUnlock, .UnlockThreadStack => some .atWait
  | _, _ => none

/-- The program point reached by a list of calls that obeys the call discipline from
`pc` on; `none` when some call is out of order. -/
def follows (pc : PC) : List Call → Option PC
  | [] => some pc
  | c :: cs =>
    match Call.next pc c with
    | none => none
    | some pc1 => follows pc1 cs

/-- Every processing call comes directly after a lock call, and when the lock
primitive of that call returned success, the Processing Task held the gate at the
moment processing was invoked. -/
def ProcessedUnderGate (calls : List Call) : Prop :=
  ∀ pre g post, calls = pre ++ Call.ProcessThreadActivity g :: post →
    ∃ pre1 status, pre = pre1 ++ [Call.LockThreadStack status] ∧
      (status = .WICED_SUCCESS → g = .HeldBy .processingTask)

/-- The unlock primitive never fails at the primitive level when the Processing Task
calls it: released by the holder, or a no-op from a non-holder. -/
def UnlockFaultFree (sched : List Action) : Prop :=
  ∀ o, Action.task o ∈ sched → o.unlock = none

/-- Only the Processing Task runs in the schedule. -/
def TaskOnly (sched : List Action) : Prop :=
  ∀ a ∈ sched, ∃ o, a = Action.task o

/-- The Processing Task does not hold the gate while it is at the wait or about to
lock. -/
def Balanced (s : TaskState) : Prop :=
  (s.pc = .atWait ∨ s.pc = .atLock) → s.mgr.mMutex ≠ .HeldBy .processingTask

/-- Invariant behind `ProcessedUnderGate`: between a lock call and the processing
call the last call is that lock, and a granted gate stays with the task. -/
def GatedInv (s : TaskState) : Prop :=
  ProcessedUnderGate s.calls ∧
  (s.pc = .atProcess → ∃ pre status, s.calls = pre ++ [Call.LockThreadStack status] ∧
    (status = .WICED_SUCCESS → s.mgr.mMutex = .HeldBy .processingTask))

open ThreadStackManagerImpl

/-! ## General lemmas -/

theorem run_invariant (P : TaskState → Prop) (Q : Action → Prop)
    (hstep : ∀ a x, Q a → P x → P (a.apply x)) (sched : List Action) (s : TaskState)
    (hq : ∀ a ∈ sched, Q a) (hs : P s) : P (run sched s) := by
  induction sched generalizing s with
  | nil => exact hs
  | cons a as ih =>
    exact ih (a.apply s) (fun b hb => hq b (List.mem_cons_of_mem a hb))
      (hstep a s (hq a (List.mem_cons_self a as)) hs)

theorem snoc_eq_append_cons {α : Type} (xs pre post : List α) (c d : α)
    (h : xs ++ [c] = pre ++ d :: post) :
    (post = [] ∧ xs = pre ∧ c = d) ∨ (∃ post1, post = post1 ++ [c] ∧ xs = pre ++ d :: post1) := by
  rcases List.eq_nil_or_concat post with hp | ⟨post1, e, hp⟩
  · subst hp
    have := List.append_inj' h rfl
    left
    exact ⟨rfl, this.1, by simpa using this.2⟩
  · subst hp
    have h2 : xs ++ [c] = (pre ++ d :: post1) ++ [e] := by simpa using h
    have := List.append_inj' h2 rfl
    right
    refine ⟨post1, ?_, this.1⟩
    have h3 : c = e := by simpa using this.2
    rw [h3]
    simp

theorem processedUnderGate_snoc (calls : List Call) (c : Call)
    (h : ProcessedUnderGate calls) (hc : ∀ g, c ≠ Call.ProcessThreadActivity g) :
    ProcessedUnderGate (calls ++ [c]) := by
  intro pre g post heq
  rcases snoc_eq_append_cons calls pre post c _ heq with ⟨_, _, h3⟩ | ⟨post1, _, h2⟩
  · exact absurd h3 (hc g)
  · exact h pre g post1 h2

theorem processedUnderGate_snoc_process (calls : List Call) (st : wiced_result_t) (g : Gate)
    (h : ProcessedUnderGate (calls ++ [Call.LockThreadStack st]))
    (hg : st = .WICED_SUCCESS → g = .HeldBy .processingTask) :
    ProcessedUnderGate (calls ++ [Call.LockThreadStack st] ++ [Call.ProcessThreadActivity g]) := by
  intro pre g1 post heq
  rcases snoc_eq_append_cons _ pre post _ _ heq with ⟨_, h2, h3⟩ | ⟨post1, _, h2⟩
  · refine ⟨calls, st, h2.symm, ?_⟩
    have : g = g1 := by simpa using h3
    subst this
    exact hg
  · exact h pre g1 post1 h2

theorem lock_external_keeps_task_hold (status : wiced_result_t) (id : Nat)
    (m m1 : ThreadStackManagerImpl) (h : m._LockThreadStack status (.external id) = some m1)
    (hm : m.mMutex = .HeldBy .processingTask) : m1.mMutex = .HeldBy .processingTask := by
  simp only [_LockThreadStack, wiced_rtos_lock_mutex, hm] at h
  by_cases hs : status = .WICED_SUCCESS
  · simp [hs] at h
  · simp [hs, ChipLogError] at h
    subst h
    rfl

theorem unlock_external_keeps_task_hold (fault : Option Nat) (id : Nat)
    (m : ThreadStackManagerImpl) (hm : m.mMutex = .HeldBy .processingTask) :
    (m._UnlockThreadStack fault (.external id)).mMutex = .HeldBy .processingTask := by
  cases fault with
  | none => simp [_UnlockThreadStack, wiced_rtos_unlock_mutex, hm]
  | some c => simp [_UnlockThreadStack, wiced_rtos_unlock_mutex, hm, ChipLogError]

theorem gatedInv_apply (a : Action) (s : TaskState) (h : GatedInv s) : GatedInv (a.apply s) := by
  rcases h with ⟨h1, h2⟩
  cases a with
  | task o =>
    simp only [Action.apply]
    cases hs : ThreadTaskMain o s with
    | none => exact ⟨h1, h2⟩
    | some s1 =>
      simp only [Option.getD_some]
      rcases s with ⟨m, pc, calls⟩
      cases pc
      · simp only [ThreadTaskMain, EventFlags.WaitAnyForever] at hs
        by_cases hw : o.wait = .CHIP_NO_ERROR
        · by_cases hf : m.mEventFlags = 0
          · simp [hw, hf] at hs
          · simp [hw, hf] at hs
            subst hs
            exact ⟨processedUnderGate_snoc _ _ h1 (by simp), by simp⟩
        · simp [hw] at hs
          subst hs
          exact ⟨processedUnderGate_snoc _ _ h1 (by simp), by simp⟩
      · simp only [ThreadTaskMain] at hs
        cases hl : m._LockThreadStack o.lock .processingTask with
        | none => simp [hl] at hs
        | some m1 =>
          simp [hl] at hs
          subst hs
          refine ⟨processedUnderGate_snoc _ _ h1 (by simp), fun _ => ⟨calls, o.lock, rfl, ?_⟩⟩
          intro hsucc
          simp only [_LockThreadStack, wiced_rtos_lock_mutex, hsucc] at hl
          cases hg : m.mMutex with
          | Free =>
            simp [hg] at hl
            subst hl
            rfl
          | HeldBy c => simp [hg] at hl
      · simp only [ThreadTaskMain] at hs
        simp at hs
        subst hs
        obtain ⟨pre, st, hc, hg⟩ := h2 rfl
        simp only at hc hg
        subst hc
        exact ⟨processedUnderGate_snoc_process pre st _ h1 hg, by simp⟩
      · simp only [ThreadTaskMain] at hs
        simp at hs
        subst hs
        exact ⟨processedUnderGate_snoc _ _ h1 (by simp), by simp⟩
  | SignalThreadActivityPending => exact ⟨h1, h2⟩
  | SignalThreadActivityPendingFromISR => exact ⟨h1, h2⟩
  | LockThreadStack id status =>
    simp only [Action.apply]
    cases hl : s.mgr._LockThreadStack status (.external id) with
    | none => exact ⟨h1, h2⟩
    | some m1 =>
      refine ⟨h1, fun hpc => ?_⟩
      obtain ⟨pre, st, hc, hg⟩ := h2 hpc
      exact ⟨pre, st, hc, fun hsucc => lock_external_keeps_task_hold status id _ _ hl (hg hsucc)⟩
  | UnlockThreadStack id fault =>
    refine ⟨h1, fun hpc => ?_⟩
    obtain ⟨pre, st, hc, hg⟩ := h2 hpc
    exact ⟨pre, st, hc, fun hsucc => unlock_external_keeps_task_hold fault id _ (hg hsucc)⟩

theorem follows_append (pc : PC) (xs : List Call) (c : Call) :
    follows pc (xs ++ [c]) = (follows pc xs).bind (fun p => Call.next p c) := by
  induction xs generalizing pc with
  | nil =>
    simp [follows]
    cases Call.next pc c <;> rfl
  | cons x xs ih =>
    simp only [List.cons_append, follows]
    cases Call.next pc x with
    | none => rfl
    | some p => exact ih p

theorem task_follows (o : Outcomes) (s s1 : TaskState) (pc0 : PC)
    (h : follows pc0 s.calls = some s.pc) (hs : ThreadTaskMain o s = some s1) :
    follows pc0 s1.calls = some s1.pc := by
  rcases s with ⟨m, pc, calls⟩
  simp only at h
  cases pc
  · -- atWait
    simp only [ThreadTaskMain, EventFlags.WaitAnyForever] at hs
    by_cases hw : o.wait = .CHIP_NO_ERROR
    · by_cases hf : m.mEventFlags = 0
      · simp [hw, hf] at hs
      · simp [hw, hf] at hs
        subst hs
        simp [follows_append, h, Call.next]
    · simp [hw] at hs
      subst hs
      simp [follows_append, h, Call.next, hw]
  · simp only [ThreadTaskMain] at hs
    cases hl : m._LockThreadStack o.lock .processingTask with
    | none => simp [hl] at hs
    | some m1 =>
      simp [hl] at hs
      subst hs
      simp [follows_append, h, Call.next]
  · simp only [ThreadTaskMain] at hs
    simp at hs
    subst hs
    simp [follows_append, h, Call.next]
  · simp only [ThreadTaskMain] at hs
    simp at hs
    subst hs
    simp [follows_append, h, Call.next]

theorem apply_follows (a : Action) (s : TaskState) (pc0 : PC)
    (h : follows pc0 s.calls = some s.pc) :
    follows pc0 (a.apply s).calls = some (a.apply s).pc := by
  cases a with
  | task o =>
    simp only [Action.apply]
    cases hs : ThreadTaskMain o s with
    | none => simpa using h
    | some s1 => simpa using task_follows o s s1 pc0 h hs
  | SignalThreadActivityPending => exact h
  | SignalThreadActivityPendingFromISR => exact h
  | LockThreadStack id status =>
    simp only [Action.apply]
    cases s.mgr._LockThreadStack status (.external id) <;> exact h
  | UnlockThreadStack id fault => exact h

theorem run_follows (sched : List Action) (s : TaskState) (pc0 : PC)
    (h : follows pc0 s.calls = some s.pc) :
    follows pc0 (run sched s).calls = some (run sched s).pc := by
  induction sched generalizing s with
  | nil => exact h
  | cons a as ih => exact ih (a.apply s) (apply_follows a s pc0 h)

theorem lock_external_not_task (status : wiced_result_t) (id : Nat)
    (m m1 : ThreadStackManagerImpl) (h : m._LockThreadStack status (.external id) = some m1)
    (hm : m.mMutex ≠ .HeldBy .processingTask) : m1.mMutex ≠ .HeldBy .processingTask := by
  simp only [_LockThreadStack, wiced_rtos_lock_mutex] at h
  by_cases hs : status = .WICED_SUCCESS
  · cases hg : m.mMutex with
    | Free =>
      simp [hs, hg] at h
      subst h
      simp
    | HeldBy c => simp [hs, hg] at h
  · simp [hs, ChipLogError] at h
    subst h
    exact hm

theorem unlock_not_task (fault : Option Nat) (c : Ctx)
    (m : ThreadStackManagerImpl) (hm : m.mMutex ≠ .HeldBy .processingTask) :
    (m._UnlockThreadStack fault c).mMutex ≠ .HeldBy .processingTask := by
  cases fault with
  | none =>
    by_cases hg : m.mMutex = .HeldBy c
    · simp [_UnlockThreadStack, wiced_rtos_unlock_mutex, hg]
    · simp [_UnlockThreadStack, wiced_rtos_unlock_mutex, hg, hm]
  | some code => simp [_UnlockThreadStack, wiced_rtos_unlock_mutex, hm, ChipLogError]

theorem unlock_task_releases (m : ThreadStackManagerImpl) :
    (m._UnlockThreadStack none .processingTask).mMutex ≠ .HeldBy .processingTask := by
  by_cases hg : m.mMutex = .HeldBy .processingTask
  · simp [_UnlockThreadStack, wiced_rtos_unlock_mutex, hg]
  · simp [_UnlockThreadStack, wiced_rtos_unlock_mutex, hg]

theorem balanced_apply (a : Action) (s : TaskState) (ha : ∀ o, a = .task o → o.unlock = none)
    (h : Balanced s) : Balanced (a.apply s) := by
  cases a with
  | task o =>
    simp only [Action.apply]
    cases hs : ThreadTaskMain o s with
    | none => exact h
    | some s1 =>
      simp only [Option.getD_some]
      rcases s with ⟨m, pc, calls⟩
      cases pc
      · simp only [ThreadTaskMain, EventFlags.WaitAnyForever] at hs
        have hm : m.mMutex ≠ .HeldBy .processingTask := h (Or.inl rfl)
        by_cases hw : o.wait = .CHIP_NO_ERROR
        · by_cases hf : m.mEventFlags = 0
          · simp [hw, hf] at hs
          · simp [hw, hf] at hs
            subst hs
            intro _
            exact hm
        · simp [hw] at hs
          subst hs
          intro _
          exact hm
      · simp only [ThreadTaskMain] at hs
        cases hl : m._LockThreadStack o.lock .processingTask with
        | none => simp [hl] at hs
        | some m1 =>
          simp [hl] at hs
          subst hs
          intro hpc
          simp at hpc
      · simp only [ThreadTaskMain] at hs
        simp at hs
        subst hs
        intro hpc
        simp at hpc
      · simp only [ThreadTaskMain] at hs
        simp at hs
        subst hs
        intro _
        have := ha o rfl
        rw [this]
        exact unlock_task_releases m
  | SignalThreadActivityPending => exact h
  | SignalThreadActivityPendingFromISR => exact h
  | LockThreadStack id status =>
    simp only [Action.apply]
    cases hl : s.mgr._LockThreadStack status (.external id) with
    | none => exact h
    | some m1 =>
      intro hpc
      exact lock_external_not_task status id _ _ hl (h hpc)
  | UnlockThreadStack id fault =>
    intro hpc
    exact unlock_not_task fault _ _ (h hpc)

theorem task_keeps_foreign_hold (o : Outcomes) (s s1 : TaskState) (id : Nat)
    (hg : s.mgr.mMutex = .HeldBy (.external id)) (hs : ThreadTaskMain o s = some s1) :
    s1.mgr.mMutex = .HeldBy (.external id) := by
  rcases s with ⟨m, pc, calls⟩
  simp only at hg
  cases pc
  · simp only [ThreadTaskMain, EventFlags.WaitAnyForever] at hs
    by_cases hw : o.wait = .CHIP_NO_ERROR
    · by_cases hf : m.mEventFlags = 0
      · simp [hw, hf] at hs
      · simp [hw, hf] at hs
        subst hs
        exact hg
    · simp [hw] at hs
      subst hs
      exact hg
  · simp only [ThreadTaskMain, _LockThreadStack, wiced_rtos_lock_mutex, hg] at hs
    by_cases hl : o.lock = .WICED_SUCCESS
    · simp [hl] at hs
    · simp [hl, ChipLogError] at hs
      subst hs
      rfl
  · simp only [ThreadTaskMain] at hs
    simp at hs
    subst hs
    exact hg
  · simp only [ThreadTaskMain] at hs
    simp at hs
    subst hs
    cases hu : o.unlock with
    | none => simp [_UnlockThreadStack, wiced_rtos_unlock_mutex, hg]
    | some code => simp [_UnlockThreadStack, wiced_rtos_unlock_mutex, hg, ChipLogError]

theorem wait_failed_step (o : Outcomes) (s : TaskState) (hpc : s.pc = .atWait)
    (ho : o.wait ≠ .CHIP_NO_ERROR) :
    ThreadTaskMain o s = some { s with calls := s.calls ++ [Call.WaitAnyForever o.wait 0] } := by
  rcases s with ⟨m, pc, calls⟩
  simp only at hpc
  subst hpc
  simp [ThreadTaskMain, EventFlags.WaitAnyForever, ho]

theorem lock_failure_returns (status : wiced_result_t) (caller : Ctx) (m : ThreadStackManagerImpl)
    (h : status ≠ .WICED_SUCCESS) :
    m._LockThreadStack status caller =
      some { m with log := m.log ++ [⟨Func._LockThreadStack, status⟩] } := by
  simp [_LockThreadStack, wiced_rtos_lock_mutex, h, ChipLogError]

/-! ## The claims -/

/-- C1: the calls of the Processing Task obey the iteration discipline in every
execution: after a successful wait, whatever flags it returned, come exactly
LockThreadStack, ProcessThreadActivity and UnlockThreadStack in that order and
then the next wait; after a failed wait comes the next wait.  A failed wait
changes nothing but the record of the call (no lock, no processing, no unlock, no
log line) and leaves the task at the wait.  A successful wait whose lock call
returns is followed by the three calls, once each, and the task is at the wait
again. -/
theorem iteration_call_sequence (m : ThreadStackManagerImpl) (sched : List Action)
    (s : TaskState) (o : Outcomes) (m1 : ThreadStackManagerImpl) :
    follows .atWait (run sched (TaskState.start m)).calls
      = some (run sched (TaskState.start m)).pc ∧
    (s.pc = .atWait → o.wait ≠ .CHIP_NO_ERROR →
      ThreadTaskMain o s = some { s with calls := s.calls ++ [Call.WaitAnyForever o.wait 0] }) ∧
    (s.pc = .atWait → o.wait = .CHIP_NO_ERROR → s.mgr.mEventFlags ≠ 0 →
      ({ s.mgr with mEventFlags := 0 } : ThreadStackManagerImpl)._LockThreadStack o.lock
        .processingTask = some m1 →
      run [.task o, .task o, .task o, .task o] s =
        ⟨m1._UnlockThreadStack o.unlock .processingTask, .atWait,
         s.calls ++ [Call.WaitAnyForever .CHIP_NO_ERROR s.mgr.mEventFlags,
                     Call.LockThreadStack o.lock, Call.ProcessThreadActivity m1.mMutex,
                     Call.UnlockThreadStack]⟩) := by
  refine ⟨run_follows sched _ .atWait rfl, wait_failed_step o s, ?_⟩
  intro hpc ho hf hl
  rcases s with ⟨m0, pc, calls⟩
  simp only at hpc hf hl
  subst hpc
  simp [run, Action.apply, ThreadTaskMain, EventFlags.WaitAnyForever, ho, hf, hl]

/-- C1, witness: an iteration with a failed wait, and one with a successful wait. -/
theorem iteration_call_sequence_witness :
    ThreadTaskMain ⟨.CHIP_ERROR_INTERNAL, .WICED_SUCCESS, none⟩ ⟨⟨2, .Free, .Free, []⟩, .atWait, []⟩
      = some ⟨⟨2, .Free, .Free, []⟩, .atWait, [Call.WaitAnyForever .CHIP_ERROR_INTERNAL 0]⟩ ∧
    run [.task ⟨.CHIP_NO_ERROR, .WICED_SUCCESS, none⟩, .task ⟨.CHIP_NO_ERROR, .WICED_SUCCESS, none⟩,
         .task ⟨.CHIP_NO_ERROR, .WICED_SUCCESS, none⟩, .task ⟨.CHIP_NO_ERROR, .WICED_SUCCESS, none⟩]
        ⟨⟨2, .Free, .Free, []⟩, .atWait, []⟩
      = ⟨⟨0, .Free, .Free, []⟩, .atWait,
         [Call.WaitAnyForever .CHIP_NO_ERROR 2, Call.LockThreadStack .WICED_SUCCESS,
          Call.ProcessThreadActivity (.HeldBy .processingTask), Call.UnlockThreadStack]⟩ :=
  ⟨(iteration_call_sequence ⟨2, .Free, .Free, []⟩ [] ⟨⟨2, .Free, .Free, []⟩, .atWait, []⟩
      ⟨.CHIP_ERROR_INTERNAL, .WICED_SUCCESS, none⟩ ⟨0, .Free, .Free, []⟩).2.1 rfl (by decide),
   (iteration_call_sequence ⟨2, .Free, .Free, []⟩ [] ⟨⟨2, .Free, .Free, []⟩, .atWait, []⟩
      ⟨.CHIP_NO_ERROR, .WICED_SUCCESS, none⟩ ⟨0, .HeldBy .processingTask, .Free, []⟩).2.2
      rfl rfl (by decide) (by decide)⟩

/-- C3: when the caller does not hold the gate (it is free, or another context
holds it) the unlock primitive reports `WICED_NOT_OWNED` and `_UnlockThreadStack`
returns the manager as it was: the gate state, also a hold of another context, and
the log are unchanged.  When the caller is the holder the primitive reports success
and only the gate changes: it becomes free; nothing is logged in either case. -/
theorem unlock_tolerance (caller : Ctx) (m : ThreadStackManagerImpl) :
    (m.mMutex ≠ .HeldBy caller →
      (wiced_rtos_unlock_mutex none caller m.mMutex).1 = .WICED_NOT_OWNED ∧
      m._UnlockThreadStack none caller = m) ∧
    (m.mMutex = .HeldBy caller →
      (wiced_rtos_unlock_mutex none caller m.mMutex).1 = .WICED_SUCCESS ∧
      m._UnlockThreadStack none caller = { m with mMutex := .Free }) := by
  constructor
  · intro h
    simp [_UnlockThreadStack, wiced_rtos_unlock_mutex, h]
  · intro h
    simp [_UnlockThreadStack, wiced_rtos_unlock_mutex, h]

/-- C3, witness: an unlock against a gate held by another context, against a free
gate, and by the holder. -/
theorem unlock_tolerance_witness :
    ((wiced_rtos_unlock_mutex none (.external 1) (.HeldBy (.external 2))).1 = .WICED_NOT_OWNED ∧
      (⟨0, .HeldBy (.external 2), .Free, []⟩ : ThreadStackManagerImpl)._UnlockThreadStack none
        (.external 1) = ⟨0, .HeldBy (.external 2), .Free, []⟩) ∧
    ((wiced_rtos_unlock_mutex none (.external 1) .Free).1 = .WICED_NOT_OWNED ∧
      (⟨0, .Free, .Free, []⟩ : ThreadStackManagerImpl)._UnlockThreadStack none
        (.external 1) = ⟨0, .Free, .Free, []⟩) ∧
    ((wiced_rtos_unlock_mutex none (.external 1) (.HeldBy (.external 1))).1 = .WICED_SUCCESS ∧
      (⟨0, .HeldBy (.external 1), .Free, []⟩ : ThreadStackManagerImpl)._UnlockThreadStack none
        (.external 1) = ⟨0, .Free, .Free, []⟩) :=
  ⟨(unlock_tolerance (.external 1) ⟨0, .HeldBy (.external 2), .Free, []⟩).1 (by decide),
   (unlock_tolerance (.external 1) ⟨0, .Free, .Free, []⟩).1 (by decide),
   (unlock_tolerance (.external 1) ⟨0, .HeldBy (.external 1), .Free, []⟩).2 rfl⟩

/-- C4, counterexample: with the gate free and the lock primitive failing with status
`WICED_ERROR 1`, the task waits, calls the lock, and then invokes
ProcessThreadActivity while the gate is free, so not held by the task. -/
theorem processing_without_gate :
    (run [.task ⟨.CHIP_NO_ERROR, .WICED_ERROR 1, none⟩, .task ⟨.CHIP_NO_ERROR, .WICED_ERROR 1, none⟩,
          .task ⟨.CHIP_NO_ERROR, .WICED_ERROR 1, none⟩]
        (TaskState.start ⟨1, .Free, .Free, []⟩)).calls
      = [Call.WaitAnyForever .CHIP_NO_ERROR 1, Call.LockThreadStack (.WICED_ERROR 1),
         Call.ProcessThreadActivity .Free] ∧
    Gate.Free ≠ Gate.HeldBy Ctx.processingTask := by
  decide

/-- C4, amended: in every execution each ProcessThreadActivity call comes directly
after the LockThreadStack call of its iteration, and whenever the lock primitive of
that call returned success the Processing Task holds the gate at the moment
processing is invoked. -/
theorem processing_under_gate_when_locked (m : ThreadStackManagerImpl) (sched : List Action) :
    ProcessedUnderGate (run sched (TaskState.start m)).calls := by
  have h0 : GatedInv (TaskState.start m) := by
    refine ⟨?_, ?_⟩
    · intro pre g post h
      simp [TaskState.start] at h
    · intro h
      simp [TaskState.start] at h
  exact (run_invariant GatedInv (fun _ => True) (fun a x _ hx => gatedInv_apply a x hx)
    sched _ (fun _ _ => trivial) h0).1

/-- C5: for a status other than success `_LockThreadStack` returns at once, with one
error line logged and nothing else changed; there is no error result to propagate.
For the status success it logs nothing, and the caller is the holder; on a free gate
it returns.  In `ThreadTaskMain` a failed acquisition is followed by
ProcessThreadActivity and UnlockThreadStack all the same, and the task is at the wait
again. -/
theorem lock_fail_open (status : wiced_result_t) (caller : Ctx) (m : ThreadStackManagerImpl)
    (s : TaskState) (o : Outcomes) :
    (status ≠ .WICED_SUCCESS →
      m._LockThreadStack status caller =
        some { m with log := m.log ++ [⟨Func._LockThreadStack, status⟩] }) ∧
    (status = .WICED_SUCCESS → ∀ m1, m._LockThreadStack status caller = some m1 →
      m1 = { m with mMutex := .HeldBy caller }) ∧
    (status = .WICED_SUCCESS → m.mMutex = .Free →
      m._LockThreadStack status caller = some { m with mMutex := .HeldBy caller }) ∧
    (s.pc = .atLock → o.lock ≠ .WICED_SUCCESS →
      run [.task o, .task o, .task o] s =
        ⟨({ s.mgr with log := s.mgr.log ++ [⟨Func._LockThreadStack, o.lock⟩] } :
            ThreadStackManagerImpl)._UnlockThreadStack o.unlock .processingTask,
         .atWait,
         s.calls ++ [Call.LockThreadStack o.lock, Call.ProcessThreadActivity s.mgr.mMutex,
                     Call.UnlockThreadStack]⟩) := by
  refine ⟨lock_failure_returns status caller m, ?_, ?_, ?_⟩
  · intro hs m1 h
    subst hs
    cases hg : m.mMutex with
    | Free =>
      simp [_LockThreadStack, wiced_rtos_lock_mutex, hg] at h
      exact h.symm
    | HeldBy c => simp [_LockThreadStack, wiced_rtos_lock_mutex, hg] at h
  · intro hs hg
    simp [_LockThreadStack, wiced_rtos_lock_mutex, hs, hg]
  · intro hpc hl
    rcases s with ⟨m0, pc, calls⟩
    simp only at hpc
    subst hpc
    simp [run, Action.apply, ThreadTaskMain, lock_failure_returns _ _ _ hl]

/-- C5, witness: a failed and a granted acquisition, and an iteration whose lock
fails. -/
theorem lock_fail_open_witness :
    (⟨0, .HeldBy (.external 2), .Free, []⟩ : ThreadStackManagerImpl)._LockThreadStack
        (.WICED_ERROR 7) .processingTask
      = some ⟨0, .HeldBy (.external 2), .Free, [⟨Func._LockThreadStack, .WICED_ERROR 7⟩]⟩ ∧
    (⟨0, .Free, .Free, []⟩ : ThreadStackManagerImpl)._LockThreadStack .WICED_SUCCESS .processingTask
      = some ⟨0, .HeldBy .processingTask, .Free, []⟩ ∧
    run [.task ⟨.CHIP_NO_ERROR, .WICED_ERROR 7, none⟩, .task ⟨.CHIP_NO_ERROR, .WICED_ERROR 7, none⟩,
         .task ⟨.CHIP_NO_ERROR, .WICED_ERROR 7, none⟩]
        ⟨⟨0, .Free, .Free, []⟩, .atLock, []⟩
      = ⟨⟨0, .Free, .Free, [⟨Func._LockThreadStack, .WICED_ERROR 7⟩]⟩, .atWait,
         [Call.LockThreadStack (.WICED_ERROR 7), Call.ProcessThreadActivity .Free,
          Call.UnlockThreadStack]⟩ :=
  ⟨(lock_fail_open (.WICED_ERROR 7) .processingTask ⟨0, .HeldBy (.external 2), .Free, []⟩
      ⟨⟨0, .Free, .Free, []⟩, .atLock, []⟩ ⟨.CHIP_NO_ERROR, .WICED_ERROR 7, none⟩).1 (by decide),
   (lock_fail_open .WICED_SUCCESS .processingTask ⟨0, .Free, .Free, []⟩
      ⟨⟨0, .Free, .Free, []⟩, .atLock, []⟩ ⟨.CHIP_NO_ERROR, .WICED_ERROR 7, none⟩).2.2.1 rfl rfl,
   (lock_fail_open (.WICED_ERROR 7) .processingTask ⟨0, .Free, .Free, []⟩
      ⟨⟨0, .Free, .Free, []⟩, .atLock, []⟩ ⟨.CHIP_NO_ERROR, .WICED_ERROR 7, none⟩).2.2.2
      rfl (by decide)⟩

/-- C6: in `_InitThreadStack` a failed creation of the task handle, of the Event
Signal Set, of the Mutual Exclusion Gate or (capability enabled) of the Auxiliary
Rendezvous Gate returns `CHIP_ERROR_NO_MEMORY`, and a non-success status from starting
a created gate returns `CHIP_ERROR_INTERNAL`.  Each clause assumes only that the
earlier steps succeeded, so the first failing step decides whatever the later
outcomes are, and `DoInit` is not invoked.  `DoInit` is invoked only when every step
succeeded, and then its error is the result. -/
theorem init_error_taxonomy (srpClient : Bool) (o : InitOutcomes) :
    (o.createThread = false →
      (_InitThreadStack srpClient o).err = .CHIP_ERROR_NO_MEMORY ∧
      InitCall.DoInit ∉ (_InitThreadStack srpClient o).calls) ∧
    (o.createThread = true → o.createEventFlags = false →
      (_InitThreadStack srpClient o).err = .CHIP_ERROR_NO_MEMORY ∧
      InitCall.DoInit ∉ (_InitThreadStack srpClient o).calls) ∧
    (o.createThread = true → o.createEventFlags = true → o.initEventFlags = .WICED_SUCCESS →
      o.createMutex = false →
      (_InitThreadStack srpClient o).err = .CHIP_ERROR_NO_MEMORY ∧
      InitCall.DoInit ∉ (_InitThreadStack srpClient o).calls) ∧
    (o.createThread = true → o.createEventFlags = true → o.initEventFlags = .WICED_SUCCESS →
      o.createMutex = true → o.initMutex ≠ .WICED_SUCCESS →
      (_InitThreadStack srpClient o).err = .CHIP_ERROR_INTERNAL ∧
      InitCall.DoInit ∉ (_InitThreadStack srpClient o).calls) ∧
    (srpClient = true →
      o.createThread = true → o.createEventFlags = true → o.initEventFlags = .WICED_SUCCESS →
      o.createMutex = true → o.initMutex = .WICED_SUCCESS → o.createSrpMutex = false →
      (_InitThreadStack srpClient o).err = .CHIP_ERROR_NO_MEMORY ∧
      InitCall.DoInit ∉ (_InitThreadStack srpClient o).calls) ∧
    (srpClient = true →
      o.createThread = true → o.createEventFlags = true → o.initEventFlags = .WICED_SUCCESS →
      o.createMutex = true → o.initMutex = .WICED_SUCCESS → o.createSrpMutex = true →
      o.initSrpMutex ≠ .WICED_SUCCESS →
      (_InitThreadStack srpClient o).err = .CHIP_ERROR_INTERNAL ∧
      InitCall.DoInit ∉ (_InitThreadStack srpClient o).calls) ∧
    (InitCall.DoInit ∈ (_InitThreadStack srpClient o).calls →
      (_InitThreadStack srpClient o).err = o.doInit ∧
      o.createThread = true ∧ o.createEventFlags = true ∧ o.initEventFlags = .WICED_SUCCESS ∧
      o.createMutex = true ∧ o.initMutex = .WICED_SUCCESS ∧
      (srpClient = true → o.createSrpMutex = true ∧ o.initSrpMutex = .WICED_SUCCESS)) := by
  rcases o with ⟨a, b, c, d, e, f, g, h⟩
  refine ⟨?_, ?_, ?_, ?_, ?_, ?_, ?_⟩
  · intro h1
    simp at h1
    subst h1
    simp [_InitThreadStack]
  · intro h1 h2
    simp at h1 h2
    subst h1 h2
    simp [_InitThreadStack, EventFlags.Init]
  · intro h1 h2 h3 h4
    simp at h1 h2 h3 h4
    subst h1 h2 h3 h4
    simp [_InitThreadStack, EventFlags.Init, wiced_rtos_create_mutex]
  · intro h1 h2 h3 h4 h5
    simp at h1 h2 h3 h4 h5
    subst h1 h2 h3 h4
    simp [_InitThreadStack, EventFlags.Init, wiced_rtos_create_mutex, wiced_rtos_init_mutex, h5]
  · intro h0 h1 h2 h3 h4 h5 h6
    simp at h1 h2 h3 h4 h5 h6
    subst h0 h1 h2 h3 h4 h5 h6
    simp [_InitThreadStack, EventFlags.Init, wiced_rtos_create_mutex, wiced_rtos_init_mutex]
  · intro h0 h1 h2 h3 h4 h5 h6 h7
    simp at h1 h2 h3 h4 h5 h6 h7
    subst h0 h1 h2 h3 h4 h5 h6
    simp [_InitThreadStack, EventFlags.Init, wiced_rtos_create_mutex, wiced_rtos_init_mutex, h7]
  · intro hmem
    cases a <;> cases b <;> cases d <;> cases f <;> cases srpClient <;>
      by_cases hc : c = .WICED_SUCCESS <;> by_cases he : e = .WICED_SUCCESS <;>
      by_cases hg : g = .WICED_SUCCESS <;>
      simp_all [_InitThreadStack, EventFlags.Init, wiced_rtos_create_mutex, wiced_rtos_init_mutex]

/-- C6, witness: one failing bring-up for each clause, and the bring-up without a
failure. -/
theorem init_error_taxonomy_witness :
    (_InitThreadStack true { InitOutcomes.allOk with createThread := false }).err
      = .CHIP_ERROR_NO_MEMORY ∧
    (_InitThreadStack true { InitOutcomes.allOk with createEventFlags := false }).err
      = .CHIP_ERROR_NO_MEMORY ∧
    (_InitThreadStack true { InitOutcomes.allOk with createMutex := false }).err
      = .CHIP_ERROR_NO_MEMORY ∧
    (_InitThreadStack true { InitOutcomes.allOk with initMutex := .WICED_ERROR 4 }).err
      = .CHIP_ERROR_INTERNAL ∧
    (_InitThreadStack true { InitOutcomes.allOk with createSrpMutex := false }).err
      = .CHIP_ERROR_NO_MEMORY ∧
    (_InitThreadStack true { InitOutcomes.allOk with initSrpMutex := .WICED_ERROR 4 }).err
      = .CHIP_ERROR_INTERNAL ∧
    (_InitThreadStack true InitOutcomes.allOk).err = .CHIP_NO_ERROR :=
  ⟨((init_error_taxonomy true { InitOutcomes.allOk with createThread := false }).1 rfl).1,
   ((init_error_taxonomy true { InitOutcomes.allOk with createEventFlags := false }).2.1
      rfl rfl).1,
   ((init_error_taxonomy true { InitOutcomes.allOk with createMutex := false }).2.2.1
      rfl rfl rfl rfl).1,
   ((init_error_taxonomy true { InitOutcomes.allOk with initMutex := .WICED_ERROR 4 }).2.2.2.1
      rfl rfl rfl rfl (by decide)).1,
   ((init_error_taxonomy true { InitOutcomes.allOk with createSrpMutex := false }).2.2.2.2.1
      rfl rfl rfl rfl rfl rfl rfl).1,
   ((init_error_taxonomy true
      { InitOutcomes.allOk with initSrpMutex := .WICED_ERROR 4 }).2.2.2.2.2.1
      rfl rfl rfl rfl rfl rfl rfl (by decide)).1,
   ((init_error_taxonomy true InitOutcomes.allOk).2.2.2.2.2.2 (by decide)).1⟩

/-- C7, the code at the failing input: after a bring-up with the capability enabled
in which nothing fails the Auxiliary Rendezvous Gate is free, and the first
`_WaitOnSrpClearAllComplete` returns at once as the holder, without any
`_NotifySrpClearAllComplete` having been called. -/
theorem first_clear_all_wait_returns_without_notify :
    (_InitThreadStack true InitOutcomes.allOk).err = .CHIP_NO_ERROR ∧
    (_InitThreadStack true InitOutcomes.allOk).manager = some ⟨0, .Free, .Free, []⟩ ∧
    (⟨0, .Free, .Free, []⟩ : ThreadStackManagerImpl)._WaitOnSrpClearAllComplete .WICED_SUCCESS
        (.external 1)
      = some ⟨0, .Free, .HeldBy (.external 1), []⟩ := by
  decide

/-- C8, the code at the failing input: with the Auxiliary Rendezvous Gate held by the
waiting context `external 1`, a `_NotifySrpClearAllComplete` from the Processing
Task gets `WICED_NOT_OWNED` from the primitive and returns the manager unchanged:
the gate is still held by the waiter, and nothing is logged. -/
theorem clear_all_notify_from_other_context_keeps_gate :
    (wiced_rtos_unlock_mutex none .processingTask (.HeldBy (.external 1))).1
      = .WICED_NOT_OWNED ∧
    (⟨0, .Free, .HeldBy (.external 1), []⟩ : ThreadStackManagerImpl)._NotifySrpClearAllComplete
        none .processingTask
      = ⟨0, .Free, .HeldBy (.external 1), []⟩ := by
  decide

/-- C9, counterexample: with the capability enabled and the creation of the Auxiliary
Rendezvous Gate failing, the call returns `CHIP_ERROR_NO_MEMORY` with that gate a
null pointer, and `otSysInit` has been performed all the same. -/
theorem otSysInit_before_semaphore :
    (_InitThreadStack true { InitOutcomes.allOk with createSrpMutex := false }).err
        = .CHIP_ERROR_NO_MEMORY ∧
    (_InitThreadStack true { InitOutcomes.allOk with createSrpMutex := false }).mSrpClearAllSemaphore
        = .null ∧
    InitCall.otSysInit ∈
      (_InitThreadStack true { InitOutcomes.allOk with createSrpMutex := false }).calls := by
  decide

/-- C9, amended: `otSysInit` is performed at most once per call, and it is performed
exactly when the task handle, the Event Signal Set and the Mutual Exclusion Gate have
been created and started successfully; it is then the fifth call, directly after
those steps and before any step for the Auxiliary Rendezvous Gate. -/
theorem otSysInit_order (srpClient : Bool) (o : InitOutcomes) :
    (_InitThreadStack srpClient o).calls.count InitCall.otSysInit ≤ 1 ∧
    (InitCall.otSysInit ∈ (_InitThreadStack srpClient o).calls ↔
      o.createThread = true ∧ o.createEventFlags = true ∧ o.initEventFlags = .WICED_SUCCESS ∧
      o.createMutex = true ∧ o.initMutex = .WICED_SUCCESS) ∧
    (InitCall.otSysInit ∈ (_InitThreadStack srpClient o).calls →
      (_InitThreadStack srpClient o).calls.take 5 =
        [InitCall.wiced_rtos_create_thread, InitCall.EventFlags_Init,
         InitCall.wiced_rtos_create_mutex .mMutex, InitCall.wiced_rtos_init_mutex .mMutex,
         InitCall.otSysInit]) := by
  rcases o with ⟨a, b, c, d, e, f, g, h⟩
  cases a <;> cases b <;> cases d <;> cases f <;> cases srpClient <;>
    by_cases hc : c = .WICED_SUCCESS <;> by_cases he : e = .WICED_SUCCESS <;>
    by_cases hg : g = .WICED_SUCCESS <;>
    simp_all [_InitThreadStack, EventFlags.Init, wiced_rtos_create_mutex, wiced_rtos_init_mutex,
      List.count_cons]

/-- C9 amended, witness: a bring-up without failure performs `otSysInit` as its fifth
call, and one whose gate start-up fails does not perform it. -/
theorem otSysInit_order_witness :
    (_InitThreadStack true InitOutcomes.allOk).calls.take 5 =
      [InitCall.wiced_rtos_create_thread, InitCall.EventFlags_Init,
       InitCall.wiced_rtos_create_mutex .mMutex, InitCall.wiced_rtos_init_mutex .mMutex,
       InitCall.otSysInit] ∧
    InitCall.otSysInit ∉
      (_InitThreadStack true { InitOutcomes.allOk with initMutex := .WICED_ERROR 4 }).calls :=
  ⟨(otSysInit_order true InitOutcomes.allOk).2.2 (by decide),
   fun h => absurd
     (((otSysInit_order true { InitOutcomes.allOk with initMutex := .WICED_ERROR 4 }).2.1.mp
        h).2.2.2.2) (by decide)⟩

/-- C10: start the loop with the gate not held by the Processing Task, and let the
unlock primitive behave as the gate model says (no primitive-level fault in the
task's unlock).  Then in every execution, for all wait and lock outcomes and all
actions of other contexts, whenever the task is at `WaitAnyForever` it does not hold
the gate.  And statements of the task, hence any number of drain passes, never
change a hold that belongs to another context. -/
theorem gate_balance (m : ThreadStackManagerImpl) (sched : List Action) (x : TaskState)
    (id : Nat) (tasks : List Action) :
    (m.mMutex ≠ .HeldBy .processingTask → UnlockFaultFree sched →
      (run sched (TaskState.start m)).pc = .atWait →
      (run sched (TaskState.start m)).mgr.mMutex ≠ .HeldBy .processingTask) ∧
    (TaskOnly tasks → x.mgr.mMutex = .HeldBy (.external id) →
      (run tasks x).mgr.mMutex = .HeldBy (.external id)) := by
  constructor
  · intro hfree hsched hw
    have := run_invariant Balanced (fun a => ∀ o, a = .task o → o.unlock = none)
      (fun a y hq hy => balanced_apply a y hq hy) sched (TaskState.start m)
      (fun a ha o1 h1 => hsched o1 (h1 ▸ ha)) (fun _ => hfree)
    exact this (Or.inl hw)
  · intro htasks hx
    refine run_invariant (fun y => y.mgr.mMutex = .HeldBy (.external id))
      (fun a => ∃ o, a = Action.task o) ?_ tasks x htasks hx
    rintro a y ⟨o, rfl⟩ hy
    simp only [Action.apply]
    cases hs : ThreadTaskMain o y with
    | none => exact hy
    | some s1 => exact task_keeps_foreign_hold o y s1 id hy hs

/-- C10, witness: two iterations, one with a failing lock and one with a granted lock,
with another thread taking and releasing the gate in between; and a drain pass against
a gate held by another thread. -/
theorem gate_balance_witness :
    (run [.task ⟨.CHIP_NO_ERROR, .WICED_ERROR 1, none⟩, .LockThreadStack 5 .WICED_SUCCESS,
          .task ⟨.CHIP_NO_ERROR, .WICED_ERROR 1, none⟩, .task ⟨.CHIP_NO_ERROR, .WICED_ERROR 1, none⟩,
          .task ⟨.CHIP_NO_ERROR, .WICED_ERROR 1, none⟩, .UnlockThreadStack 5 none,
          .SignalThreadActivityPendingFromISR,
          .task ⟨.CHIP_NO_ERROR, .WICED_SUCCESS, none⟩, .task ⟨.CHIP_NO_ERROR, .WICED_SUCCESS, none⟩,
          .task ⟨.CHIP_NO_ERROR, .WICED_SUCCESS, none⟩, .task ⟨.CHIP_NO_ERROR, .WICED_SUCCESS, none⟩]
        (TaskState.start ⟨1, .Free, .Free, []⟩)).mgr.mMutex ≠ .HeldBy .processingTask ∧
    (run [.task ⟨.CHIP_NO_ERROR, .WICED_ERROR 1, none⟩, .task ⟨.CHIP_NO_ERROR, .WICED_ERROR 1, none⟩,
          .task ⟨.CHIP_NO_ERROR, .WICED_ERROR 1, none⟩]
        ⟨⟨0, .HeldBy (.external 5), .Free, []⟩, .atLock, []⟩).mgr.mMutex
      = .HeldBy (.external 5) :=
  ⟨(gate_balance ⟨1, .Free, .Free, []⟩
      [.task ⟨.CHIP_NO_ERROR, .WICED_ERROR 1, none⟩, .LockThreadStack 5 .WICED_SUCCESS,
       .task ⟨.CHIP_NO_ERROR, .WICED_ERROR 1, none⟩, .task ⟨.CHIP_NO_ERROR, .WICED_ERROR 1, none⟩,
       .task ⟨.CHIP_NO_ERROR, .WICED_ERROR 1, none⟩, .UnlockThreadStack 5 none,
       .SignalThreadActivityPendingFromISR,
       .task ⟨.CHIP_NO_ERROR, .WICED_SUCCESS, none⟩, .task ⟨.CHIP_NO_ERROR, .WICED_SUCCESS, none⟩,
       .task ⟨.CHIP_NO_ERROR, .WICED_SUCCESS, none⟩, .task ⟨.CHIP_NO_ERROR, .WICED_SUCCESS, none⟩]
      ⟨⟨0, .HeldBy (.external 5), .Free, []⟩, .atLock, []⟩ 5
      [.task ⟨.CHIP_NO_ERROR, .WICED_ERROR 1, none⟩, .task ⟨.CHIP_NO_ERROR, .WICED_ERROR 1, none⟩,
       .task ⟨.CHIP_NO_ERROR, .WICED_ERROR 1, none⟩]).1
      (by decide) (by intro o ho; simp at ho; rcases ho with h | h <;> rw [h]) (by decide),
   (gate_balance ⟨1, .Free, .Free, []⟩ []
      ⟨⟨0, .HeldBy (.external 5), .Free, []⟩, .atLock, []⟩ 5
      [.task ⟨.CHIP_NO_ERROR, .WICED_ERROR 1, none⟩, .task ⟨.CHIP_NO_ERROR, .WICED_ERROR 1, none⟩,
       .task ⟨.CHIP_NO_ERROR, .WICED_ERROR 1, none⟩]).2
      (by intro a ha; simp at ha; exact ⟨_, ha⟩) rfl⟩

end CYW30739
